import Mathlib

/-
  Verification of the configuration module of ttyper (src/config.rs).

  Rust str values are modelled as their UTF-8 byte sequences (List Nat),
  so that byte-length checks and byte slicing behave exactly as in Rust.
  Fallible deserialization is modelled by DeResult, which also records the
  possibility of a Rust panic (an abort that is not an error value).
-/

namespace Ttyper

/-- UTF-8 bytes of an ASCII string literal appearing in the source; every
string literal matched against in config.rs is pure ASCII, so the byte list
is the list of character code points. -/
def ascii (s : String) : List Nat := s.data.map Char.toNat

/-- The ratatui Color type as used by config.rs: sixteen named colors, the
Reset sentinel, and an RGB triple of 8-bit channels. -/
inductive Color where
  | Reset | Black | White | Red | Green | Yellow | Blue | Magenta | Cyan
  | Gray | DarkGray | LightRed | LightGreen | LightYellow | LightBlue
  | LightMagenta | LightCyan
  | Rgb (r g b : Nat)
deriving DecidableEq, Repr

namespace Modifier

/-- Bitflag value of Modifier.BOLD in ratatui. -/
def BOLD : Nat := 1

/-- Bitflag value of Modifier.DIM in ratatui. -/
def DIM : Nat := 2

/-- Bitflag value of Modifier.ITALIC in ratatui. -/
def ITALIC : Nat := 4

/-- Bitflag value of Modifier.UNDERLINED in ratatui. -/
def UNDERLINED : Nat := 8

/-- Bitflag value of Modifier.SLOW_BLINK in ratatui. -/
def SLOW_BLINK : Nat := 16

/-- Bitflag value of Modifier.RAPID_BLINK in ratatui. -/
def RAPID_BLINK : Nat := 32

/-- Bitflag value of Modifier.REVERSED in ratatui. -/
def REVERSED : Nat := 64

/-- Bitflag value of Modifier.HIDDEN in ratatui. -/
def HIDDEN : Nat := 128

/-- Bitflag value of Modifier.CROSSED_OUT in ratatui. -/
def CROSSED_OUT : Nat := 256

end Modifier

/-- The ratatui Style record as populated by config.rs: optional foreground
and background colors and two u16 modifier bitsets. -/
structure Style where
  fg : Option Color
  bg : Option Color
  add_modifier : Nat
  sub_modifier : Nat
deriving DecidableEq, Repr

/-- Style.default in ratatui: no colors, empty modifier sets. -/
def Style.default : Style := ⟨none, none, 0, 0⟩

/-- Style.add_modifier in ratatui: removes the flags from sub_modifier and
inserts them into add_modifier (bitset operations on u16). -/
def Style.addModifier (s : Style) (m : Nat) : Style :=
  ⟨s.fg, s.bg, s.add_modifier ||| m, s.sub_modifier &&& (65535 ^^^ m)⟩

/-- A serde deserialization error as produced in config.rs: either a custom
message (E.custom) or an invalid-value error carrying the unexpected string
and an expectation description (E.invalid_value). -/
inductive DeError where
  | custom (msg : String)
  | invalidValue (unexpected : List Nat) (expected : String)
deriving DecidableEq, Repr

/-- Outcome of running a deserialization function from config.rs: a value,
an error value, or a Rust panic (an abort, distinct from returning Err). -/
inductive DeResult (α : Type) where
  | ok (a : α)
  | err (e : DeError)
  | panicked
deriving DecidableEq, Repr

/-- Rust str.is_char_boundary: index 0 is always a boundary; an in-range
index is a boundary when the byte there is not a UTF-8 continuation byte
(so below 128 or at least 192); the length itself is a boundary. -/
def isCharBoundary (s : List Nat) (i : Nat) : Bool :=
  if i = 0 then true
  else
    match s.get? i with
    | some b => decide (b < 128 ∨ 192 ≤ b)
    | none => decide (i = s.length)

/-- Rust byte-range slicing of a str, value[a..b]: defined only when both
endpoints are char boundaries (and in order); otherwise Rust panics, which
is modelled by none. -/
def strSlice (s : List Nat) (a b : Nat) : Option (List Nat) :=
  if a ≤ b ∧ isCharBoundary s a = true ∧ isCharBoundary s b = true then
    some ((s.drop a).take (b - a))
  else none

/-- Value of a byte as a base-16 digit, as in Rust char.to_digit(16):
decimal digits, lowercase a-f and uppercase A-F. -/
def hexDigitVal (b : Nat) : Option Nat :=
  if 48 ≤ b ∧ b ≤ 57 then some (b - 48)
  else if 97 ≤ b ∧ b ≤ 102 then some (b - 87)
  else if 65 ≤ b ∧ b ≤ 70 then some (b - 55)
  else none

/-- Digit-accumulation loop of u8::from_str_radix for a positive number in
base 16: each step multiplies by 16 and adds the digit with u8 overflow
checks (checked_mul then checked_add against 255). -/
def parsePosHexU8 (acc : Nat) : List Nat → Option Nat
  | [] => some acc
  | b :: rest =>
    match hexDigitVal b with
    | none => none
    | some d =>
      if acc * 16 ≤ 255 then
        if acc * 16 + d ≤ 255 then parsePosHexU8 (acc * 16 + d) rest else none
      else none

/-- Digit-accumulation loop of u8::from_str_radix after a minus sign: each
step multiplies by 16 and subtracts the digit with u8 checks (checked_mul
then checked_sub against zero), so only strings of zero digits succeed. -/
def parseNegHexU8 (acc : Nat) : List Nat → Option Nat
  | [] => some acc
  | b :: rest =>
    match hexDigitVal b with
    | none => none
    | some d =>
      if acc * 16 ≤ 255 then
        if d ≤ acc * 16 then parseNegHexU8 (acc * 16 - d) rest else none
      else none

/-- u8::from_str_radix(s, 16) from the Rust core library: an empty string is
an error; a leading plus (byte 43) or minus (byte 45) is a sign and must be
followed by at least one digit; all error kinds are collapsed to none since
config.rs maps every parse error to one custom error. -/
def fromStrRadix16U8 (s : List Nat) : Option Nat :=
  match s with
  | [] => none
  | b :: rest =>
    if b = 43 then (if rest = [] then none else parsePosHexU8 0 rest)
    else if b = 45 then (if rest = [] then none else parseNegHexU8 0 rest)
    else parsePosHexU8 0 s

/-- Expectation string passed to E.invalid_value in deserialize_color. -/
def colorExpected : String := "a color name or hexadecimal color code"

/-- Expectation string passed to E.invalid_value in deserialize_style. -/
def styleModifierExpected : String := "a style modifier"

/-- Custom error message used for a failed hex pair in deserialize_color. -/
def hexPairError : String := "color code was not valid hexadecimal"

/-- Serde renders E.invalid_value(unexpected, expectation) with a message
that ends in the word expected followed by the expectation string; this
gives that user-visible expectation description for an expectation. -/
def displayedExpectation (expected : String) : String :=
  "expected " ++ expected

/-- The visit_str body of deserialize_color in config.rs: the seventeen
exact name matches, then for byte length exactly 6 the three byte-pair
slices parsed in base 16 left to right (slicing can panic off a char
boundary, parse failures give the custom hex error), otherwise an
invalid-value error carrying the input and the expectation string. -/
def deserializeColor (value : List Nat) : DeResult Color :=
  if value = ascii "reset" then .ok .Reset
  else if value = ascii "black" then .ok .Black
  else if value = ascii "white" then .ok .White
  else if value = ascii "red" then .ok .Red
  else if value = ascii "green" then .ok .Green
  else if value = ascii "yellow" then .ok .Yellow
  else if value = ascii "blue" then .ok .Blue
  else if value = ascii "magenta" then .ok .Magenta
  else if value = ascii "cyan" then .ok .Cyan
  else if value = ascii "gray" then .ok .Gray
  else if value = ascii "darkgray" then .ok .DarkGray
  else if value = ascii "lightred" then .ok .LightRed
  else if value = ascii "lightgreen" then .ok .LightGreen
  else if value = ascii "lightyellow" then .ok .LightYellow
  else if value = ascii "lightblue" then .ok .LightBlue
  else if value = ascii "lightmagenta" then .ok .LightMagenta
  else if value = ascii "lightcyan" then .ok .LightCyan
  else if value.length = 6 then
    match strSlice value 0 2 with
    | none => .panicked
    | some p1 =>
      match fromStrRadix16U8 p1 with
      | none => .err (.custom hexPairError)
      | some r =>
        match strSlice value 2 4 with
        | none => .panicked
        | some p2 =>
          match fromStrRadix16U8 p2 with
          | none => .err (.custom hexPairError)
          | some g =>
            match strSlice value 4 6 with
            | none => .panicked
            | some p3 =>
              match fromStrRadix16U8 p3 with
              | none => .err (.custom hexPairError)
              | some b => .ok (.Rgb r g b)
  else .err (.invalidValue value colorExpected)

/-- Rust str.split_once(sep) on a byte string: splits at the first
occurrence of the separator byte, none when the separator is absent. -/
def splitOnce (sep : Nat) : List Nat → Option (List Nat × List Nat)
  | [] => none
  | b :: rest =>
    if b = sep then some ([], rest)
    else
      match splitOnce sep rest with
      | none => none
      | some p => some (b :: p.1, p.2)

/-- Rust str.split(sep) on a byte string: the list of pieces between
separator bytes; always at least one piece. -/
def splitAll (sep : Nat) : List Nat → List (List Nat)
  | [] => [[]]
  | b :: rest =>
    if b = sep then [] :: splitAll sep rest
    else
      match splitAll sep rest with
      | [] => [[b]]
      | p :: ps => (b :: p) :: ps

/-- Rust str.split_terminator(sep): like split, but when the final piece is
empty (the string is empty or ends with the separator) it is skipped. -/
def splitTerminator (sep : Nat) (s : List Nat) : List (List Nat) :=
  let parts := splitAll sep s
  if parts.getLast? = some [] then parts.dropLast else parts

/-- The fg and bg match arms in deserialize_style: the literal none or the
empty string give no color; any other sub-token is delegated to
deserialize_color, whose failure propagates. -/
def parseOptColor (s : List Nat) : DeResult (Option Color) :=
  if s = ascii "none" ∨ s = [] then .ok none
  else
    match deserializeColor s with
    | .ok c => .ok (some c)
    | .err e => .err e
    | .panicked => .panicked

/-- The modifier match in deserialize_style: the nine recognized modifier
names and their ratatui bitflags; none for an unrecognized token. -/
def modifierFlag (t : List Nat) : Option Nat :=
  if t = ascii "bold" then some Modifier.BOLD
  else if t = ascii "crossed_out" then some Modifier.CROSSED_OUT
  else if t = ascii "dim" then some Modifier.DIM
  else if t = ascii "hidden" then some Modifier.HIDDEN
  else if t = ascii "italic" then some Modifier.ITALIC
  else if t = ascii "rapid_blink" then some Modifier.RAPID_BLINK
  else if t = ascii "slow_blink" then some Modifier.SLOW_BLINK
  else if t = ascii "reversed" then some Modifier.REVERSED
  else if t = ascii "underlined" then some Modifier.UNDERLINED
  else none

/-- The modifier loop in deserialize_style: fold the recognized flags into
the style with add_modifier; an unrecognized token returns the
invalid-value error carrying that token and the expectation string. -/
def applyModifiers (s : Style) : List (List Nat) → DeResult Style
  | [] => .ok s
  | t :: rest =>
    match modifierFlag t with
    | some m => applyModifiers (s.addModifier m) rest
    | none => .err (.invalidValue t styleModifierExpected)

/-- The visit_str body of deserialize_style in config.rs: split at the
first semicolon into colors and modifiers (all modifiers empty when
absent), split colors at the first colon into fg and bg (bg the literal
none when absent), resolve fg then bg, then fold the modifier tokens
obtained by split_terminator on semicolons. -/
def deserializeStyle (value : List Nat) : DeResult Style :=
  let cm := (splitOnce 59 value).getD (value, [])
  let fb := (splitOnce 58 cm.1).getD (cm.1, ascii "none")
  match parseOptColor fb.1 with
  | .err e => .err e
  | .panicked => .panicked
  | .ok f =>
    match parseOptColor fb.2 with
    | .err e => .err e
    | .panicked => .panicked
    | .ok b => applyModifiers ⟨f, b, 0, 0⟩ (splitTerminator 59 cm.2)

/-- The Theme record of config.rs: currently empty. -/
structure Theme where
deriving DecidableEq, Repr

/-- The Config record of config.rs; default_language is a PathBuf in the
source, modelled by its string value. -/
structure Config where
  default_language : String
  default_lexer : String
  max_misalignment : Nat
  theme : Theme
deriving DecidableEq, Repr

/-- The Default impl for Config in config.rs. -/
def Config.default : Config :=
  ⟨"english200", "extended-grapheme-clusters", 8, ⟨⟩⟩

/-- A value of a parsed TOML document tree, restricted to the shapes the
Config fields can take: strings, integers and tables. -/
inductive TomlValue where
  | str (s : String)
  | int (n : Int)
  | table (kvs : List (String × TomlValue))

/-- First value bound to a key in a key-value tree. -/
def lookupKey (kvs : List (String × TomlValue)) (k : String) : Option TomlValue :=
  match kvs with
  | [] => none
  | kv :: rest => if kv.1 = k then some kv.2 else lookupKey rest k

/-- Modelled from the spec: the serde-derived field access for a
string-typed Config field (the derived Deserialize impl with the
serde default attribute is generated code, not in src). A missing key
falls back to the default instance value; a wrong-typed value is a fatal
deserialization error. -/
def getStringField (kvs : List (String × TomlValue)) (k : String)
    (dflt : String) : Except String String :=
  match lookupKey kvs k with
  | none => .ok dflt
  | some (.str s) => .ok s
  | some _ => .error ("invalid type for " ++ k)

/-- Modelled from the spec: the serde-derived field access for the
non-negative integer Config field; a missing key falls back to the
default, a wrong-typed or negative value is a fatal error. -/
def getNatField (kvs : List (String × TomlValue)) (k : String)
    (dflt : Nat) : Except String Nat :=
  match lookupKey kvs k with
  | none => .ok dflt
  | some (.int n) => if n < 0 then .error ("invalid value for " ++ k) else .ok n.toNat
  | some _ => .error ("invalid type for " ++ k)

/-- Modelled from the spec: the serde-derived field access for the theme
field; a missing key falls back to the default Theme, a table (with no
recognized sub-keys) gives the empty Theme, anything else is a fatal
error. -/
def getThemeField (kvs : List (String × TomlValue)) : Except String Theme :=
  match lookupKey kvs "theme" with
  | none => .ok ⟨⟩
  | some (.table _) => .ok ⟨⟩
  | some _ => .error "invalid type for theme"

/-- Modelled from the spec: deserializing a parsed TOML key-value tree into
Config with field-by-field fallback to the default instance, as the
serde default attribute on Config prescribes. -/
def configFromToml (kvs : List (String × TomlValue)) : Except String Config := do
  let dl ← getStringField kvs "default_language" Config.default.default_language
  let dx ← getStringField kvs "default_lexer" Config.default.default_lexer
  let mm ← getNatField kvs "max_misalignment" Config.default.max_misalignment
  let th ← getThemeField kvs
  pure ⟨dl, dx, mm, th⟩

/-- Outcome of the load function in config.rs: a Config, or a fatal abort
(the unwrap panic on a TOML deserialization error). -/
inductive LoadResult where
  | ok (c : Config)
  | fatal (msg : String)
deriving DecidableEq, Repr

/-- The load function of config.rs: the result of std fs read_to_string is
given as an Option String (none for any read failure), and toml from_str
is an explicit parameter since the TOML text parser is an external crate;
the unwrap on a deserialization error aborts the program, modelled as the
fatal outcome, while a read failure yields the default Config. -/
def load (readResult : Option String)
    (tomlFromStr : String → Except String Config) : LoadResult :=
  match readResult with
  | some raw =>
    match tomlFromStr raw with
    | .ok c => .ok c
    | .error e => .fatal e
  | none => .ok Config.default

/-- The seventeen string literals matched by name in deserialize_color. -/
def namedColorStrings : List (List Nat) :=
  [ascii "reset", ascii "black", ascii "white", ascii "red", ascii "green",
   ascii "yellow", ascii "blue", ascii "magenta", ascii "cyan", ascii "gray",
   ascii "darkgray", ascii "lightred", ascii "lightgreen",
   ascii "lightyellow", ascii "lightblue", ascii "lightmagenta",
   ascii "lightcyan"]

theorem hexDigitVal_bounds {b d : Nat} (h : hexDigitVal b = some d) :
    48 ≤ b ∧ b ≤ 102 ∧ d ≤ 15 := by
  unfold hexDigitVal at h
  split_ifs at h with h1 h2 h3 <;> simp_all <;> omega

theorem splitOnce_eq_none {sep : Nat} {s : List Nat} (h : sep ∉ s) :
    splitOnce sep s = none := by
  induction s with
  | nil => rfl
  | cons b rest ih =>
    simp only [List.mem_cons, not_or] at h
    simp only [splitOnce, if_neg (Ne.symm h.1), ih h.2]

theorem splitOnce_append {sep : Nat} {a : List Nat} (b : List Nat)
    (h : sep ∉ a) : splitOnce sep (a ++ sep :: b) = some (a, b) := by
  induction a with
  | nil => simp [splitOnce]
  | cons x rest ih =>
    simp only [List.mem_cons, not_or] at h
    simp only [List.cons_append, splitOnce, List.append_eq,
      if_neg (Ne.symm h.1), ih h.2]

theorem splitAll_ne_nil (sep : Nat) (s : List Nat) : splitAll sep s ≠ [] := by
  induction s with
  | nil => simp [splitAll]
  | cons b rest ih =>
    simp only [splitAll]
    split
    · simp
    · split
      · simp
      · simp

theorem splitAll_no_sep {sep : Nat} {s : List Nat} (h : sep ∉ s) :
    splitAll sep s = [s] := by
  induction s with
  | nil => rfl
  | cons b rest ih =>
    simp only [List.mem_cons, not_or] at h
    simp only [splitAll, if_neg (Ne.symm h.1), ih h.2]

theorem splitAll_append_sep (sep : Nat) (s : List Nat) :
    splitAll sep (s ++ [sep]) = splitAll sep s ++ [[]] := by
  induction s with
  | nil => simp [splitAll]
  | cons x rest ih =>
    by_cases hx : x = sep
    · subst hx
      simp only [List.cons_append, splitAll, if_pos rfl, List.append_eq, ih]
      simp
    · simp only [List.cons_append, splitAll, List.append_eq, if_neg hx, ih]
      cases h : splitAll sep rest with
      | nil => exact absurd h (splitAll_ne_nil sep rest)
      | cons p ps => simp

theorem splitTerminator_append_sep (sep : Nat) (s : List Nat) :
    splitTerminator sep (s ++ [sep]) = splitAll sep s := by
  unfold splitTerminator
  rw [splitAll_append_sep]
  simp

/-- C1: when the config file read succeeds but its contents fail TOML
deserialization, load surfaces the fatal abort carrying the parse error
and never returns any Config, in particular never silently the default
one. -/
theorem load_fatal_on_invalid_toml (raw : String)
    (tomlFromStr : String → Except String Config) (e : String)
    (h : tomlFromStr raw = .error e) :
    load (some raw) tomlFromStr = .fatal e ∧
      ∀ c : Config, load (some raw) tomlFromStr ≠ .ok c := by
  refine ⟨by simp [load, h], ?_⟩
  intro c hc
  simp [load, h] at hc

/-- Witness for C1 at a concrete malformed document and a TOML parser that
rejects it. -/
theorem load_fatal_on_invalid_toml_witness :
    load (some "][") (fun _ => Except.error "TOML parse error") =
        .fatal "TOML parse error" ∧
      ∀ c : Config,
        load (some "][") (fun _ => Except.error "TOML parse error") ≠ .ok c :=
  load_fatal_on_invalid_toml "][" (fun _ => Except.error "TOML parse error")
    "TOML parse error" rfl

/-- C2: whatever the TOML parser would do, a failed file read makes load
return the statically-defined default Config, whose fields are the
english200 language, the extended-grapheme-clusters lexer, a maximal
misalignment of 8 and the empty theme, and no error is reported. -/
theorem load_default_on_read_failure
    (tomlFromStr : String → Except String Config) :
    load none tomlFromStr = .ok Config.default ∧
      Config.default.default_language = "english200" ∧
      Config.default.default_lexer = "extended-grapheme-clusters" ∧
      Config.default.max_misalignment = 8 ∧
      Config.default.theme = ⟨⟩ ∧
      ∀ e : String, load none tomlFromStr ≠ .fatal e := by
  refine ⟨rfl, rfl, rfl, rfl, rfl, ?_⟩
  intro e he
  simp [load] at he

/-- C5 is refuted on the code: the 6-byte input consisting of a, the two
UTF-8 bytes 195 and 169 of the letter e-acute, then b, c, d reaches the
hexadecimal branch, where the byte slice of indices 0 to 2 ends inside the
two-byte character; that is a Rust panic, an abort rather than an error
return, even though the input has byte length exactly 6. -/
theorem color_panics_inside_char_boundary :
    deserializeColor [97, 195, 169, 98, 99, 100] = .panicked ∧
      ([97, 195, 169, 98, 99, 100] : List Nat).length = 6 ∧
      ∀ e : DeError, deserializeColor [97, 195, 169, 98, 99, 100] ≠ .err e := by
  refine ⟨by decide, by decide, ?_⟩
  intro e he
  rw [show deserializeColor [97, 195, 169, 98, 99, 100] = .panicked by decide]
    at he
  exact DeResult.noConfusion he

/-- C7: the style strings none, none:none and none:none; all deserialize
successfully to the default Style, which has no foreground, no background
and empty modifier sets. -/
theorem style_none_variants_default :
    deserializeStyle (ascii "none") = .ok Style.default ∧
      deserializeStyle (ascii "none:none") = deserializeStyle (ascii "none") ∧
      deserializeStyle (ascii "none:none;") = deserializeStyle (ascii "none") ∧
      Style.default = ⟨none, none, 0, 0⟩ := by
  decide

/-- C8: a document tree holding only a max_misalignment binding of 3 yields
a Config whose max_misalignment is 3 while every other field equals the
default instance value, demonstrating field-by-field fallback. -/
theorem config_field_level_fallback :
    configFromToml [("max_misalignment", TomlValue.int 3)] =
      .ok ⟨Config.default.default_language, Config.default.default_lexer, 3,
        Config.default.theme⟩ ∧
      Config.default.default_language = "english200" ∧
      Config.default.default_lexer = "extended-grapheme-clusters" ∧
      Config.default.theme = ⟨⟩ :=
  ⟨rfl, rfl, rfl, rfl⟩

/-- C10: the 6-byte string +1+2+3 is not made of hexadecimal digits only,
yet deserialize_color accepts it and returns the RGB triple 1, 2, 3,
because each 2-byte pair goes through the sign-tolerant base-16 integer
parser of the Rust core library. -/
theorem color_hex_accepts_signs :
    deserializeColor (ascii "+1+2+3") = .ok (.Rgb 1 2 3) ∧
      (ascii "+1+2+3").all (fun b => (hexDigitVal b).isSome) = false := by
  decide

theorem isCharBoundary_zero (s : List Nat) : isCharBoundary s 0 = true := rfl

theorem isCharBoundary_of_small {s : List Nat} {i b : Nat} (hi : i ≠ 0)
    (hget : s.get? i = some b) (hb : b < 128) :
    isCharBoundary s i = true := by
  unfold isCharBoundary
  rw [if_neg hi, hget]
  simp only [decide_eq_true_eq]
  omega

theorem fromStrRadix_pair {a b da db : Nat} (ha : hexDigitVal a = some da)
    (hb : hexDigitVal b = some db) :
    fromStrRadix16U8 [a, b] = some (16 * da + db) := by
  obtain ⟨hal, hau, hda⟩ := hexDigitVal_bounds ha
  obtain ⟨hbl, hbu, hdb⟩ := hexDigitVal_bounds hb
  have step : parsePosHexU8 0 [a, b] = some (da * 16 + db) := by
    unfold parsePosHexU8
    simp only [ha, hb, Nat.zero_mul, Nat.zero_add]
    split_ifs <;> try omega
    unfold parsePosHexU8
    simp only [hb]
    split_ifs <;> first | rfl | omega
  simp only [fromStrRadix16U8]
  rw [if_neg (show ¬(a = 43) by omega), if_neg (show ¬(a = 45) by omega),
    step]
  exact congrArg some (by ring)

/-- C3: any six bytes that are hexadecimal digits (of either case, with
values d1 to d6) deserialize to the RGB color whose channels are the three
consecutive base-16 pairs. -/
theorem color_hex_pairs (b1 b2 b3 b4 b5 b6 d1 d2 d3 d4 d5 d6 : Nat)
    (h1 : hexDigitVal b1 = some d1) (h2 : hexDigitVal b2 = some d2)
    (h3 : hexDigitVal b3 = some d3) (h4 : hexDigitVal b4 = some d4)
    (h5 : hexDigitVal b5 = some d5) (h6 : hexDigitVal b6 = some d6) :
    deserializeColor [b1, b2, b3, b4, b5, b6] =
      .ok (.Rgb (16 * d1 + d2) (16 * d3 + d4) (16 * d5 + d6)) := by
  obtain ⟨hl1, hu1, hd1⟩ := hexDigitVal_bounds h1
  obtain ⟨hl3, hu3, hd3⟩ := hexDigitVal_bounds h3
  obtain ⟨hl5, hu5, hd5⟩ := hexDigitVal_bounds h5
  have hne : ∀ l : List Nat, l.length ≠ 6 → [b1, b2, b3, b4, b5, b6] ≠ l := by
    intro l hl heq
    exact hl (heq ▸ rfl)
  have hy : [b1, b2, b3, b4, b5, b6] ≠ ascii "yellow" := by
    intro heq
    rw [show ascii "yellow" = [121, 101, 108, 108, 111, 119] from by decide]
      at heq
    injection heq with e1 _
    omega
  have hs1 : strSlice [b1, b2, b3, b4, b5, b6] 0 2 = some [b1, b2] := by
    unfold strSlice
    rw [if_pos ⟨by omega, isCharBoundary_zero _,
      isCharBoundary_of_small (by omega) rfl (by omega)⟩]
    rfl
  have hs2 : strSlice [b1, b2, b3, b4, b5, b6] 2 4 = some [b3, b4] := by
    unfold strSlice
    rw [if_pos ⟨by omega, isCharBoundary_of_small (by omega) rfl (by omega),
      isCharBoundary_of_small (by omega) rfl (by omega)⟩]
    rfl
  have hs3 : strSlice [b1, b2, b3, b4, b5, b6] 4 6 = some [b5, b6] := by
    unfold strSlice
    rw [if_pos ⟨by omega, isCharBoundary_of_small (by omega) rfl (by omega),
      rfl⟩]
    rfl
  have hp1 := fromStrRadix_pair h1 h2
  have hp2 := fromStrRadix_pair h3 h4
  have hp3 := fromStrRadix_pair h5 h6
  unfold deserializeColor
  rw [if_neg (hne _ (by decide)), if_neg (hne _ (by decide)),
    if_neg (hne _ (by decide)), if_neg (hne _ (by decide)),
    if_neg (hne _ (by decide)), if_neg hy, if_neg (hne _ (by decide)),
    if_neg (hne _ (by decide)), if_neg (hne _ (by decide)),
    if_neg (hne _ (by decide)), if_neg (hne _ (by decide)),
    if_neg (hne _ (by decide)), if_neg (hne _ (by decide)),
    if_neg (hne _ (by decide)), if_neg (hne _ (by decide)),
    if_neg (hne _ (by decide)), if_neg (hne _ (by decide)),
    if_pos (show ([b1, b2, b3, b4, b5, b6] : List Nat).length = 6 from rfl)]
  simp only [hs1, hp1, hs2, hp2, hs3, hp3]

/-- Witness for C3 at the all-f strings of both cases. -/
theorem color_hex_pairs_witness :
    deserializeColor (ascii "ffffff") = .ok (.Rgb 255 255 255) ∧
      deserializeColor (ascii "FFFFFF") = .ok (.Rgb 255 255 255) := by
  have hlow : hexDigitVal 102 = some 15 := by decide
  have hupp : hexDigitVal 70 = some 15 := by decide
  constructor
  · rw [show ascii "ffffff" = [102, 102, 102, 102, 102, 102] from by decide]
    have h := color_hex_pairs 102 102 102 102 102 102 15 15 15 15 15 15
      hlow hlow hlow hlow hlow hlow
    norm_num at h
    exact h
  · rw [show ascii "FFFFFF" = [70, 70, 70, 70, 70, 70] from by decide]
    have h := color_hex_pairs 70 70 70 70 70 70 15 15 15 15 15 15
      hupp hupp hupp hupp hupp hupp
    norm_num at h
    exact h

/-- C4 as stated is refuted at the input notacolor: the error does carry
the offending string, but the expectation passed by the code is: a color
name or hexadecimal color code, whose user-visible description is:
expected a color name or hexadecimal color code; the description quoted by
the claim, which omits the second occurrence of the word color, matches
neither. -/
theorem color_expected_description_counterexample :
    deserializeColor (ascii "notacolor") =
      .err (.invalidValue (ascii "notacolor") colorExpected) ∧
      displayedExpectation colorExpected ≠
        "expected a color name or hexadecimal code" ∧
      colorExpected ≠ "expected a color name or hexadecimal code" ∧
      colorExpected ≠ "a color name or hexadecimal code" := by
  decide

/-- C4 amended: deserialize_color maps the sixteen color names and reset,
matched exactly and case-sensitively, to their variants, and any string
that is neither a recognized name nor of byte length 6 fails with the
invalid-value error carrying the offending string and the expectation
whose user-visible description is: expected a color name or hexadecimal
color code. -/
theorem color_names_and_unrecognized (s : List Nat)
    (hname : s ∉ namedColorStrings) (hlen : s.length ≠ 6) :
    deserializeColor s = .err (.invalidValue s colorExpected) ∧
      displayedExpectation colorExpected =
        "expected a color name or hexadecimal color code" ∧
      deserializeColor (ascii "reset") = .ok .Reset ∧
      deserializeColor (ascii "black") = .ok .Black ∧
      deserializeColor (ascii "white") = .ok .White ∧
      deserializeColor (ascii "red") = .ok .Red ∧
      deserializeColor (ascii "green") = .ok .Green ∧
      deserializeColor (ascii "yellow") = .ok .Yellow ∧
      deserializeColor (ascii "blue") = .ok .Blue ∧
      deserializeColor (ascii "magenta") = .ok .Magenta ∧
      deserializeColor (ascii "cyan") = .ok .Cyan ∧
      deserializeColor (ascii "gray") = .ok .Gray ∧
      deserializeColor (ascii "darkgray") = .ok .DarkGray ∧
      deserializeColor (ascii "lightred") = .ok .LightRed ∧
      deserializeColor (ascii "lightgreen") = .ok .LightGreen ∧
      deserializeColor (ascii "lightyellow") = .ok .LightYellow ∧
      deserializeColor (ascii "lightblue") = .ok .LightBlue ∧
      deserializeColor (ascii "lightmagenta") = .ok .LightMagenta ∧
      deserializeColor (ascii "lightcyan") = .ok .LightCyan := by
  refine ⟨?_, by decide, by decide⟩
  simp only [namedColorStrings, List.mem_cons, List.mem_nil_iff, or_false,
    not_or] at hname
  obtain ⟨n1, n2, n3, n4, n5, n6, n7, n8, n9, n10, n11, n12, n13, n14, n15,
    n16, n17⟩ := hname
  unfold deserializeColor
  rw [if_neg n1, if_neg n2, if_neg n3, if_neg n4, if_neg n5, if_neg n6,
    if_neg n7, if_neg n8, if_neg n9, if_neg n10, if_neg n11, if_neg n12,
    if_neg n13, if_neg n14, if_neg n15, if_neg n16, if_neg n17,
    if_neg hlen]

/-- Witness for C4 at the non-name string notacolor of byte length 9. -/
theorem color_names_and_unrecognized_witness :
    deserializeColor (ascii "notacolor") =
      .err (.invalidValue (ascii "notacolor") colorExpected) :=
  (color_names_and_unrecognized (ascii "notacolor") (by decide)
    (by decide)).1

/-- C9: a token containing neither a semicolon nor a colon that
deserialize_color accepts as a color yields a style whose foreground is
that color, whose background is unset (the absent background sub-token
defaulting to the literal none), and whose modifier sets are empty. -/
theorem style_foreground_only (t : List Nat) (c : Color)
    (hsemi : 59 ∉ t) (hcolon : 58 ∉ t)
    (hc : deserializeColor t = .ok c) :
    deserializeStyle t = .ok ⟨some c, none, 0, 0⟩ := by
  have hnone : ¬(t = ascii "none" ∨ t = []) := by
    rintro (rfl | rfl)
    · rw [show deserializeColor (ascii "none") =
        .err (.invalidValue (ascii "none") colorExpected) from by decide]
        at hc
      exact DeResult.noConfusion hc
    · rw [show deserializeColor [] =
        .err (.invalidValue [] colorExpected) from by decide] at hc
      exact DeResult.noConfusion hc
  have hpf : parseOptColor t = .ok (some c) := by
    unfold parseOptColor
    rw [if_neg hnone, hc]
  have hpb : parseOptColor (ascii "none") = .ok none := by decide
  have hterm : splitTerminator 59 ([] : List Nat) = [] := rfl
  simp only [deserializeStyle, splitOnce_eq_none hsemi,
    splitOnce_eq_none hcolon, Option.getD_none, hpf, hpb, hterm,
    applyModifiers]

/-- Witness for C9 at the color name black. -/
theorem style_foreground_only_witness :
    deserializeStyle (ascii "black") = .ok ⟨some .Black, none, 0, 0⟩ :=
  style_foreground_only (ascii "black") .Black (by decide) (by decide)
    (by decide)

/-- C6: the modifiers segment splitting elides a trailing separator
(split_terminator of a string extended by a semicolon is exactly the plain
split of the original, with no extra empty token); each of the nine
modifier names maps to its flag and a recognized token folds its flag into
the style; an unrecognized modifier token t makes the modifier loop, and
the whole deserialize_style call, fail with the invalid-value error
carrying t and the expectation whose user-visible description is:
expected a style modifier. -/
theorem style_modifier_tokens (s t : List Nat) (st : Style)
    (ms : List (List Nat)) (hbad : modifierFlag t = none)
    (hsemi : 59 ∉ t) (hne : t ≠ []) :
    splitTerminator 59 (s ++ [59]) = splitAll 59 s ∧
      (modifierFlag (ascii "bold") = some Modifier.BOLD ∧
        modifierFlag (ascii "crossed_out") = some Modifier.CROSSED_OUT ∧
        modifierFlag (ascii "dim") = some Modifier.DIM ∧
        modifierFlag (ascii "hidden") = some Modifier.HIDDEN ∧
        modifierFlag (ascii "italic") = some Modifier.ITALIC ∧
        modifierFlag (ascii "rapid_blink") = some Modifier.RAPID_BLINK ∧
        modifierFlag (ascii "slow_blink") = some Modifier.SLOW_BLINK ∧
        modifierFlag (ascii "reversed") = some Modifier.REVERSED ∧
        modifierFlag (ascii "underlined") = some Modifier.UNDERLINED) ∧
      (∀ (m : List Nat) (f : Nat) (rest : List (List Nat)),
        modifierFlag m = some f →
          applyModifiers st (m :: rest) =
            applyModifiers (st.addModifier f) rest) ∧
      applyModifiers st (t :: ms) =
        .err (.invalidValue t styleModifierExpected) ∧
      deserializeStyle (ascii "none" ++ 59 :: t) =
        .err (.invalidValue t styleModifierExpected) ∧
      displayedExpectation styleModifierExpected =
        "expected a style modifier" := by
  refine ⟨splitTerminator_append_sep 59 s, by decide, ?_, ?_, ?_, by decide⟩
  · intro m f rest hm
    simp only [applyModifiers, hm]
  · unfold applyModifiers
    rw [hbad]
  · have hsplit : splitOnce 59 (ascii "none" ++ 59 :: t) =
        some (ascii "none", t) :=
      splitOnce_append t (by decide)
    have hfb : splitOnce 58 (ascii "none") = none := by decide
    have hpb : parseOptColor (ascii "none") = .ok none := by decide
    have hterm : splitTerminator 59 t = [t] := by
      unfold splitTerminator
      rw [splitAll_no_sep hsemi]
      rw [if_neg (by simp [hne])]
    have happ : applyModifiers ⟨none, none, 0, 0⟩ [t] =
        .err (.invalidValue t styleModifierExpected) := by
      unfold applyModifiers
      rw [hbad]
    simp only [deserializeStyle, hsplit, Option.getD_some, hfb,
      Option.getD_none, hpb, hterm, happ]

/-- Witness for C6 at the unrecognized modifier token wiggly. -/
theorem style_modifier_tokens_witness :
    deserializeStyle (ascii "none" ++ 59 :: ascii "wiggly") =
      .err (.invalidValue (ascii "wiggly") styleModifierExpected) :=
  (style_modifier_tokens (ascii "a") (ascii "wiggly") Style.default []
    (by decide) (by decide) (by decide)).2.2.2.2.1

example : deserializeColor (ascii "black") = .ok .Black := by decide
example : deserializeColor (ascii "ffffff") = .ok (.Rgb 255 255 255) := by decide
example : deserializeColor (ascii "FFFFFF") = .ok (.Rgb 255 255 255) := by decide
example : deserializeColor (ascii "000000") = .ok (.Rgb 0 0 0) := by decide
example : deserializeColor (ascii "+1+2+3") = .ok (.Rgb 1 2 3) := by decide
example : deserializeColor [97, 195, 169, 98, 99, 100] = .panicked := by decide
example : deserializeColor (ascii "none") =
    .err (.invalidValue (ascii "none") colorExpected) := by decide

example : deserializeStyle (ascii "none") = .ok Style.default := by decide
example : deserializeStyle (ascii "none:none") = .ok Style.default := by decide
example : deserializeStyle (ascii "none:none;") = .ok Style.default := by decide
example : deserializeStyle (ascii "black") = .ok ⟨some .Black, none, 0, 0⟩ := by decide
example : deserializeStyle (ascii "black:white") =
    .ok ⟨some .Black, some .White, 0, 0⟩ := by decide
example : deserializeStyle (ascii "none;bold") = .ok ⟨none, none, 1, 0⟩ := by decide
example : deserializeStyle (ascii "none;bold;italic;underlined;") =
    .ok ⟨none, none, 13, 0⟩ := by decide
example : deserializeStyle (ascii "00ff00:000000;bold;dim;italic;slow_blink") =
    .ok ⟨some (.Rgb 0 255 0), some (.Rgb 0 0 0), 23, 0⟩ := by decide
example : deserializeStyle (ascii "none;wiggly") =
    .err (.invalidValue (ascii "wiggly") styleModifierExpected) := by decide
example : configFromToml [("max_misalignment", TomlValue.int 3)] =
    .ok ⟨"english200", "extended-grapheme-clusters", 3, ⟨⟩⟩ := by rfl

end Ttyper
